import Mathlib



/-! ### JS values and objects -/

instance {ε α : Type} [DecidableEq ε] [DecidableEq α] : DecidableEq (Except ε α) := fun x y =>
  match x, y with
  | Except.ok a, Except.ok b =>
    if h : a = b then Decidable.isTrue (by rw [h])
    else Decidable.isFalse (by simp [h])
  | Except.ok _, Except.error _ => Decidable.isFalse (by simp)
  | Except.error _, Except.ok _ => Decidable.isFalse (by simp)
  | Except.error a, Except.error b =>
    if h : a = b then Decidable.isTrue (by rw [h])
    else Decidable.isFalse (by simp [h])

/-- A JavaScript primitive value as it appears in user records: a string,
a number (modelled as a rational), or `null`. -/
inductive JsVal where
  | str (s : String)
  | num (q : Rat)
  | null
  deriving DecidableEq, Repr

/-- A JavaScript object: an association list from keys to values.
Objects built by the code below always have distinct keys (as JS objects do). -/
abbrev Obj := List (String × JsVal)

/-- First binding of key `k` in the object (JS property read `o[k]`). -/
def objGet (o : Obj) (k : String) : Option JsVal :=
  match o with
  | [] => none
  | (k', v) :: rest => if k' = k then some v else objGet rest k

/-- Does the object have a binding for `k`? -/
def objHas (o : Obj) (k : String) : Bool :=
  match o with
  | [] => false
  | (k', _) :: rest => if k' = k then true else objHas rest k

/-- Replace every binding of key `k` by `(k, v)` in place. -/
def objSetEntries (o : Obj) (k : String) (v : JsVal) : Obj :=
  match o with
  | [] => []
  | (k', v') :: rest =>
    if k' = k then (k, v) :: objSetEntries rest k v
    else (k', v') :: objSetEntries rest k v

/-- JS property write `o[k] = v`: replace the value at an existing key
(keeping its position), or append a new binding. -/
def objSet (o : Obj) (k : String) (v : JsVal) : Obj :=
  if objHas o k then objSetEntries o k v
  else o ++ [(k, v)]

/-- JS object spread `{...a, ...b}` / `Object.assign(a, b)`: fold the bindings
of `b` into `a` in order. -/
def objMerge (a : Obj) : Obj → Obj
  | [] => a
  | (k, v) :: rest => objMerge (objSet a k v) rest

/-- The key list of an object (JS `Object.keys`). -/
def objKeys (o : Obj) : List String := o.map Prod.fst

/-! ### String helpers: JS substring and case-insensitive regex tests -/

/-- JS `hay.includes(needle)` (also `/needle/.test(hay)` for a literal
pattern): substring containment. -/
def strContains (hay needle : String) : Bool :=
  decide (needle.data <:+: hay.data)

/-- ASCII lowering of a string, for the case-insensitive `/…/i` regex tests
in the error middleware. -/
def lowerStr (s : String) : String := ⟨s.data.map Char.toLower⟩

/-- JS `/needle/i.test(hay)` for a literal pattern: case-insensitive
substring containment. -/
def strContainsCI (hay needle : String) : Bool :=
  strContains (lowerStr hay) (lowerStr needle)

/-! ### Errors (JS Error values with ad-hoc statusCode and code fields) -/

/-- The `code` property of a JS error: absent, a number (Mongo duplicate-key
`11000`), or a string (`axios` `ECONNABORTED`). -/
inductive ErrCode where
  | nocode
  | num (n : Nat)
  | str (s : String)
  deriving DecidableEq, Repr

/-- A thrown JS `Error`: message and `name`, plus the optional `statusCode`
status-class tag the services patch on, and the optional `code` field. -/
structure JsError where
  message : String
  statusCode : Option Nat := none
  name : String := "Error"
  code : ErrCode := ErrCode.nocode
  deriving DecidableEq, Repr

/-- Constructor `new Error(m)`: no status-class tag, name `"Error"`, no `code`. -/
def mkErr (m : String) : JsError :=
  { message := m, statusCode := none, name := "Error", code := ErrCode.nocode }

/-! ### GeolocationService (src/server/src/services/geolocationService.js) -/

/-- The fields of an OpenWeather current-weather response that
`fetchLocationData` destructures: `coord.lat`, `coord.lon`, `timezone`,
`name`, `sys.country`, and the first weather entry description. -/
structure WeatherResponse where
  coordLat : Rat
  coordLon : Rat
  timezone : Int
  name : String
  country : Option String := none
  weatherDescription : Option String := none
  deriving DecidableEq, Repr

/-- Outcome of the single outbound `axios.get` call to the provider:
a successful response, an HTTP error response with a status and optional
`data.message`, a timeout (`ECONNABORTED`), or another transport failure. -/
inductive UpstreamResult where
  | ok (resp : WeatherResponse)
  | httpError (status : Nat) (dataMessage : Option String)
  | timeout
  | transport (message : String)
  deriving DecidableEq, Repr

/-- The normalized location record `fetchLocationData` returns. -/
structure LocationData where
  latitude : Rat
  longitude : Rat
  timezone : Int
  timezoneOffset : String
  city : String
  country : Option String
  state : Option String
  weather : Option String
  deriving DecidableEq, Repr

/-- Embedding of `GeolocationService.isValidZipCode`: embedding of `/^\d{5}$/.test(z)`
(exactly five ASCII decimal digits). -/
def isValidZipCode (zipCode : String) : Bool :=
  zipCode.length == 5 && zipCode.data.all Char.isDigit

/-- Calling `isValidZipCode` with no argument: `RegExp.prototype.test`
coerces `undefined` to the string `"undefined"`. -/
def isValidZipCodeJs (zipCode : Option String) : Bool :=
  isValidZipCode (zipCode.getD "undefined")

/-- Embedding of `GeolocationService.formatTimezoneOffset`.  The JS guard
`!offset && offset !== 0` returns `"UTC"` only for a missing (undefined or
null) argument: `0` is falsy but fails `!== 0`, so every number reaches the
formula.  `none` models a missing argument. -/
def formatTimezoneOffset (offset : Option Int) : String :=
  match offset with
  | none => "UTC"
  | some o =>
    let hours := o.natAbs / 3600
    let sign := if 0 ≤ o then "+" else "-"
    "UTC" ++ sign ++ toString hours

/-- Embedding of `GeolocationService.getStateFromResponse`: always returns null. -/
def getStateFromResponse (_sys : Option String) : Option String := none

/-- Embedding of `GeolocationService.fetchLocationData`.  The provider call outcome is
passed as the explicit `upstream` argument.  The invalid-zip throw happens
inside the `try`, so the `catch` re-wraps it through its generic branch. -/
def fetchLocationData (zipCode : String) (upstream : UpstreamResult) :
    Except JsError LocationData :=
  if isValidZipCode zipCode = false then
    Except.error
      (mkErr "Failed to fetch location data: Invalid zip code format. Must be 5 digits.")
  else
    match upstream with
    | UpstreamResult.ok resp =>
      Except.ok
        { latitude := resp.coordLat
          longitude := resp.coordLon
          timezone := resp.timezone
          timezoneOffset := formatTimezoneOffset (some resp.timezone)
          city := resp.name
          country := match resp.country with
            | some c => if c = "" then none else some c
            | none => none
          state := getStateFromResponse resp.country
          weather := match resp.weatherDescription with
            | some d => if d = "" then none else some d
            | none => none }
    | UpstreamResult.httpError status dataMessage =>
      if status = 404 then
        Except.error (mkErr ("Zip code " ++ zipCode ++ " not found"))
      else if status = 401 then
        Except.error (mkErr "Invalid API key configuration")
      else if status = 429 then
        Except.error (mkErr "API rate limit exceeded. Please try again later.")
      else
        Except.error
          (mkErr ("OpenWeather API error: " ++ dataMessage.getD "Unknown error"))
    | UpstreamResult.timeout =>
      Except.error (mkErr "Request timeout - OpenWeather API is not responding")
    | UpstreamResult.transport m =>
      Except.error (mkErr ("Failed to fetch location data: " ++ m))

/-! ### errorHandler (src/server/src/middleware/errorHandler.js) -/

/-- The three response parts the middleware sends: HTTP status code, short
category label, and human message.  (The development-mode stack payload and
logging are side effects outside the response mapping.) -/
structure ErrorResponse where
  statusCode : Nat
  error : String
  message : String
  deriving DecidableEq, Repr

/-- ASCII apostrophe, spelled via its code point. -/
def apos : String := String.singleton (Char.ofNat 39)

/-- The fixed `CastError` message. -/
def castErrorMessage : String :=
  "We couldn" ++ apos ++ "t find that user. They may have been deleted."

/-- The fixed database-wording replacement message. -/
def databaseErrorMessage : String :=
  "We" ++ apos ++ "re having trouble connecting to the database. Please try again."

/-- The global error middleware: maps any error to a response.  Faithful to
the if/else chain: `statusCode` and `message` start from the error fields
(defaulting to 500 / "Internal Server Error"), then the first matching rule
overrides them. -/
def errorHandler (err : JsError) : ErrorResponse :=
  let statusCode := err.statusCode.getD 500
  let message := if err.message = "" then "Internal Server Error" else err.message
  if err.name = "ValidationError" then
    { statusCode := 400, error := "Validation Error", message := message }
  else if err.name = "CastError" then
    { statusCode := 404, error := "Not Found", message := castErrorMessage }
  else if err.code = ErrCode.num 11000 then
    { statusCode := 409, error := "Duplicate Entry",
      message := "A resource with this value already exists" }
  else if err.code = ErrCode.str "ECONNABORTED" || strContainsCI err.message "timeout" then
    { statusCode := 400, error := "Bad Request",
      message := "The request timed out. Please try again with valid inputs." }
  else if strContainsCI err.message "firebase" || strContainsCI err.message "database" then
    { statusCode := 500, error := "Database Error", message := databaseErrorMessage }
  else if strContains err.message "OpenWeather" then
    { statusCode := 503, error := "External Service Error",
      message := "Unable to fetch location data. Please try again later." }
  else if statusCode = 404 then
    { statusCode := 404, error := "Not Found", message := message }
  else if statusCode = 400 then
    { statusCode := 400, error := "Bad Request", message := message }
  else if statusCode = 401 then
    { statusCode := 401, error := "Unauthorized", message := message }
  else if statusCode = 403 then
    { statusCode := 403, error := "Forbidden", message := message }
  else
    { statusCode := statusCode, error := "Error", message := message }

/-- The HTTP response of the create route: the 201 success envelope with the
created record, or the error-middleware response. -/
inductive CreateHttpResponse where
  | created (statusCode : Nat) (message : String) (data : Obj)
  | error (resp : ErrorResponse)
  deriving DecidableEq, Repr

/-- Embedding of `UserController.createUser` (the `UserController` class is
appended to `src/server/index.js` after its `module.exports` line): await
`userService.createUser(req.body)`; on success respond 201 with
`"User created successfully"` and the new user; on a thrown error call
`next(error)`, which hands the error unchanged to the `errorHandler`
middleware registered by the app, and that middleware produces the
response. -/
def controllerCreateUser (result : Except JsError Obj) : CreateHttpResponse :=
  match result with
  | Except.ok newUser =>
    CreateHttpResponse.created 201 "User created successfully" newUser
  | Except.error e => CreateHttpResponse.error (errorHandler e)

/-! ### UserRepository (src/unnamed/part_008) and the document store -/

/-- The Firebase users subtree: records keyed by their push keys, plus the
counter generating fresh push keys.  Key-path reads and last-write-wins
writes; no indexing or transactions. -/
structure Store where
  recs : List (String × Obj)
  nextKey : Nat
  deriving DecidableEq, Repr

/-- A fresh Firebase push key. -/
def pushKey (n : Nat) : String := "key" ++ toString n

/-- Look up the raw stored record under `id` (no `id` field attached). -/
def storedRec (st : Store) (id : String) : Option Obj :=
  (st.recs.find? (fun p => decide (p.1 = id))).map Prod.snd

/-- Embedding of `UserRepository.findById`: `null` for a missing id, otherwise
`{ id, ...user }`.  Stored records never contain an `"id"` key (the key lives
outside the record), so the JS spread is a plain cons. -/
def repoFindById (st : Store) (id : String) : Option Obj :=
  match st.recs.find? (fun p => decide (p.1 = id)) with
  | none => none
  | some p => some (("id", JsVal.str id) :: p.2)

/-- Embedding of `UserRepository.create`: push a fresh key, stamp `createdAt`/`updatedAt`,
write `{ ...userData, createdAt, updatedAt }`, and return it with its id.
`fail` models a failing underlying write (`catch` wraps the message);
`now` models the server timestamp. -/
def repoCreate (st : Store) (fail : Option String) (userData : Obj)
    (now : Nat) : Except JsError (Obj × Store) :=
  match fail with
  | some m => Except.error (mkErr ("Failed to create user: " ++ m))
  | none =>
    let key := pushKey st.nextKey
    let newUser := objMerge userData [("createdAt", JsVal.num now), ("updatedAt", JsVal.num now)]
    let st' : Store := { recs := st.recs ++ [(key, newUser)], nextKey := st.nextKey + 1 }
    Except.ok ((("id", JsVal.str key) :: newUser), st')

/-- Embedding of `UserRepository.update`: `null` if the id is missing; otherwise merge the
supplied fields into the stored record, re-stamp `updatedAt`, write back, and
return `{ id, ...merged }`.  `fail` models a failing underlying write. -/
def repoUpdate (st : Store) (fail : Option String) (id : String)
    (updateData : Obj) (now : Nat) : Except JsError (Option Obj × Store) :=
  match fail with
  | some m => Except.error (mkErr ("Failed to update user: " ++ m))
  | none =>
    match st.recs.find? (fun p => decide (p.1 = id)) with
    | none => Except.ok (none, st)
    | some p =>
      let merged := objMerge p.2 (objMerge updateData [("updatedAt", JsVal.num now)])
      let recs' := st.recs.map (fun q => if q.1 = id then (id, merged) else q)
      Except.ok (some (("id", JsVal.str id) :: merged), { recs := recs', nextKey := st.nextKey })

/-! ### UserService (src/server/src/services/userService.js) -/

/-- An inbound create/update JSON payload: optional `name` and `zipCode`. -/
structure Payload where
  name : Option String := none
  zipCode : Option String := none
  deriving DecidableEq, Repr

/-- JS truthiness of an optional string field: absent and `""` are falsy. -/
def truthy : Option String → Bool
  | none => false
  | some s => !(s == "")

/-- JS `String.prototype.trim`: strip leading and trailing whitespace. -/
def jsTrim (s : String) : String :=
  ⟨((s.data.dropWhile Char.isWhitespace).reverse.dropWhile Char.isWhitespace).reverse⟩

/-- The `catch` block shared by `createUser` and `updateUser`: a tagged error
is rethrown as is; otherwise it is tagged 400 when its message mentions
`"Zip code"` or `"API"`; otherwise it is rethrown untagged. -/
def serviceCatch400 (e : JsError) : JsError :=
  if e.statusCode.isSome then e
  else if strContains e.message "Zip code" || strContains e.message "API" then
    { e with statusCode := some 400 }
  else e

/-- The `catch` block of `getAllUsers` / `deleteUser` / `refreshUserLocation`:
a tagged error is rethrown as is; otherwise it is wrapped as
`Service error: …` (still untagged). -/
def serviceCatchWrap (e : JsError) : JsError :=
  if e.statusCode.isSome then e
  else mkErr ("Service error: " ++ e.message)

/-- The `try` body of `UserService.createUser`. -/
def createUserBody (st : Store) (upstream : UpstreamResult)
    (storeFail : Option String) (userData : Payload) (now : Nat) :
    Except JsError (Obj × Store) :=
  if !(truthy userData.name) || !(truthy userData.zipCode) then
    Except.error { message := "Name and zip code are required", statusCode := some 400 }
  else
    let name := jsTrim (userData.name.getD "")
    let zipCode := jsTrim (userData.zipCode.getD "")
    if !(isValidZipCode zipCode) then
      Except.error
        { message := "Invalid zip code format. Must be 5 digits.", statusCode := some 400 }
    else
      match fetchLocationData zipCode upstream with
      | Except.error e => Except.error e
      | Except.ok locationData =>
        let completeUserData : Obj :=
          [("name", JsVal.str name), ("zipCode", JsVal.str zipCode),
           ("latitude", JsVal.num locationData.latitude),
           ("longitude", JsVal.num locationData.longitude),
           ("timezone", JsVal.num locationData.timezone),
           ("timezoneOffset", JsVal.str locationData.timezoneOffset),
           ("city", JsVal.str locationData.city)]
        repoCreate st storeFail completeUserData now

/-- Embedding of `UserService.createUser`: the try body with its catch block; the second
component is the store after the call (unchanged when the call throws, since
the only write is the final `repository.create`). -/
def createUser (st : Store) (upstream : UpstreamResult)
    (storeFail : Option String) (userData : Payload) (now : Nat) :
    Except JsError Obj × Store :=
  match createUserBody st upstream storeFail userData now with
  | Except.ok (u, st') => (Except.ok u, st')
  | Except.error e => (Except.error (serviceCatch400 e), st)

/-- Embedding of `UserService.updateUser`.  The last component counts calls made to the
enrichment provider (0 or 1).  Mirrors the source: check existence, build the
partial `updates` object (name if present; the zip branch when the payload
zip is truthy and differs from the stored value), reject an empty update set,
else write through the repository. -/
def updateUser (st : Store) (upstream : UpstreamResult)
    (storeFail : Option String) (id : String) (updateData : Payload)
    (now : Nat) : (Except JsError (Option Obj) × Store) × Nat :=
  match repoFindById st id with
  | none => ((Except.error { message := "User not found", statusCode := some 404 }, st), 0)
  | some existingUser =>
    let updates0 : Obj := match updateData.name with
      | none => []
      | some n => [("name", JsVal.str (jsTrim n))]
    let zRaw := updateData.zipCode.getD ""
    let step : Except JsError Obj × Nat :=
      if truthy updateData.zipCode
          && !(objGet existingUser "zipCode" == some (JsVal.str zRaw)) then
        let newZipCode := jsTrim zRaw
        if !(isValidZipCode newZipCode) then
          (Except.error
            { message := "Invalid zip code format. Must be 5 digits.", statusCode := some 400 }, 0)
        else
          match fetchLocationData newZipCode upstream with
          | Except.error e => (Except.error e, 1)
          | Except.ok locationData =>
            (Except.ok (objMerge updates0
              [("zipCode", JsVal.str newZipCode),
               ("latitude", JsVal.num locationData.latitude),
               ("longitude", JsVal.num locationData.longitude),
               ("timezone", JsVal.num locationData.timezone),
               ("timezoneOffset", JsVal.str locationData.timezoneOffset),
               ("city", JsVal.str locationData.city),
               ("locationUpdatedAt", JsVal.num now)]), 1)
      else (Except.ok updates0, 0)
    match step with
    | (Except.error e, calls) => ((Except.error (serviceCatch400 e), st), calls)
    | (Except.ok updates, calls) =>
      if updates.isEmpty then
        ((Except.error { message := "No valid updates provided", statusCode := some 400 }, st), calls)
      else
        match repoUpdate st storeFail id updates now with
        | Except.error e => ((Except.error (serviceCatch400 e), st), calls)
        | Except.ok (u, st') => ((Except.ok u, st'), calls)

/-- Coercion a stored `zipCode` value undergoes when passed to
`fetchLocationData` (whose regex test stringifies its argument).  Records
created by this application always store a string here. -/
def jsValToString : Option JsVal → String
  | some (JsVal.str s) => s
  | some (JsVal.num q) => toString q
  | some JsVal.null => "null"
  | none => "undefined"

/-- Embedding of `UserService.refreshUserLocation`: re-run enrichment on the stored
stored zip code and write latitude/longitude/timezone/timezoneOffset (and a
`locationUpdatedAt` stamp) through the repository. -/
def refreshUserLocation (st : Store) (upstream : UpstreamResult)
    (storeFail : Option String) (id : String) (now : Nat) :
    Except JsError (Option Obj) × Store :=
  match repoFindById st id with
  | none => (Except.error { message := "User not found", statusCode := some 404 }, st)
  | some user =>
    match fetchLocationData (jsValToString (objGet user "zipCode")) upstream with
    | Except.error e => (Except.error (serviceCatchWrap e), st)
    | Except.ok locationData =>
      let updates : Obj :=
        [("latitude", JsVal.num locationData.latitude),
         ("longitude", JsVal.num locationData.longitude),
         ("timezone", JsVal.num locationData.timezone),
         ("timezoneOffset", JsVal.str locationData.timezoneOffset),
         ("locationUpdatedAt", JsVal.num now)]
      match repoUpdate st storeFail id updates now with
      | Except.error e => (Except.error (serviceCatchWrap e), st)
      | Except.ok (u, st') => (Except.ok u, st')

/-- Observation helper: the status-class tag of an error result (`none` for a
success; `some tag` for an error carrying tag `tag`). -/
def errTag {α : Type} : Except JsError α → Option (Option Nat)
  | Except.error e => some e.statusCode
  | Except.ok _ => none

/-! ### Concrete fixtures used by witnesses and counterexamples -/

/-- The empty store. -/
def emptyStore : Store := { recs := [], nextKey := 0 }

/-- A well-formed create payload. -/
def johnPayload : Payload := { name := some "John Doe", zipCode := some "12345" }

/-- A provider response for zip 12345 (integral coordinates for brevity). -/
def nyResponse : WeatherResponse :=
  { coordLat := 40, coordLon := -74, timezone := -18000, name := "New York" }

/-- A provider response for zip 90210. -/
def laResponse : WeatherResponse :=
  { coordLat := 34, coordLon := -118, timezone := -28800, name := "Los Angeles" }

/-- A stored record as `createUser` writes it for `johnPayload`/`nyResponse`. -/
def nyUser : Obj :=
  [("name", JsVal.str "John Doe"), ("zipCode", JsVal.str "12345"),
   ("latitude", JsVal.num 40), ("longitude", JsVal.num (-74)),
   ("timezone", JsVal.num (-18000)), ("timezoneOffset", JsVal.str "UTC-5"),
   ("city", JsVal.str "New York"), ("createdAt", JsVal.num 7),
   ("updatedAt", JsVal.num 7)]

/-- A one-record store holding `nyUser` under id `"u1"`. -/
def nyStore : Store := { recs := [("u1", nyUser)], nextKey := 1 }

/-- The 400-tagged provider-API error the create flow produces when the
provider answers HTTP 500 with no `data.message`. -/
def openWeatherTagged : JsError :=
  { message := "OpenWeather API error: Unknown error", statusCode := some 400,
    name := "Error", code := ErrCode.nocode }

/-- A 404-tagged `User not found` error, as thrown by the service layer. -/
def notFoundTagged : JsError :=
  { message := "User not found", statusCode := some 404, name := "Error",
    code := ErrCode.nocode }

/-! ### Object lemmas -/

theorem objGet_entries_self (o : Obj) (k : String) (v : JsVal)
    (h : objHas o k = true) : objGet (objSetEntries o k v) k = some v := by
  induction o with
  | nil => simp [objHas] at h
  | cons p rest ih =>
    obtain ⟨k', v'⟩ := p
    by_cases hk : k' = k
    · simp [objSetEntries, objGet, hk]
    · simp only [objHas, if_neg hk] at h
      simp [objSetEntries, objGet, hk, ih h]

theorem objGet_entries_ne (o : Obj) (k k' : String) (v : JsVal) (h : k' ≠ k) :
    objGet (objSetEntries o k v) k' = objGet o k' := by
  induction o with
  | nil => simp [objSetEntries]
  | cons p rest ih =>
    obtain ⟨k1, v1⟩ := p
    by_cases hk : k1 = k
    · subst hk
      have hne : ¬ (k1 = k') := fun he => h he.symm
      simp [objSetEntries, objGet, hne, ih]
    · by_cases hk' : k1 = k'
      · subst hk'
        simp [objSetEntries, objGet, hk, h]
      · simp [objSetEntries, objGet, hk, hk', ih]

theorem objGet_append_single_self (o : Obj) (k : String) (v : JsVal)
    (h : objHas o k = false) : objGet (o ++ [(k, v)]) k = some v := by
  induction o with
  | nil => simp [objGet]
  | cons p rest ih =>
    obtain ⟨k', v'⟩ := p
    by_cases hk : k' = k
    · simp [objHas, hk] at h
    · simp only [objHas, if_neg hk] at h
      simp [objGet, hk, ih h]

theorem objGet_append_single_ne (o : Obj) (k k' : String) (v : JsVal)
    (h : k' ≠ k) : objGet (o ++ [(k, v)]) k' = objGet o k' := by
  induction o with
  | nil => simp [objGet, Ne.symm h]
  | cons p rest ih =>
    obtain ⟨k1, v1⟩ := p
    by_cases hk' : k1 = k'
    · simp [objGet, hk']
    · simp [objGet, hk', ih]

theorem objGet_objSet_self (o : Obj) (k : String) (v : JsVal) :
    objGet (objSet o k v) k = some v := by
  unfold objSet
  by_cases h : objHas o k = true
  · simp [h, objGet_entries_self o k v h]
  · simp only [Bool.not_eq_true] at h
    simp [h, objGet_append_single_self o k v h]

theorem objGet_objSet_ne (o : Obj) (k k' : String) (v : JsVal) (h : k' ≠ k) :
    objGet (objSet o k v) k' = objGet o k' := by
  unfold objSet
  by_cases hh : objHas o k = true
  · simp [hh, objGet_entries_ne o k k' v h]
  · simp only [Bool.not_eq_true] at hh
    simp [hh, objGet_append_single_ne o k k' v h]

/-- Combined rewrite for reading a field after a write. -/
theorem objGet_objSet (o : Obj) (k k' : String) (v : JsVal) :
    objGet (objSet o k v) k' = if k' = k then some v else objGet o k' := by
  by_cases h : k' = k
  · subst h; simp [objGet_objSet_self]
  · simp [h, objGet_objSet_ne _ _ _ _ h]

theorem objMerge_nil (a : Obj) : objMerge a [] = a := rfl

theorem objMerge_cons (a : Obj) (k : String) (v : JsVal) (rest : Obj) :
    objMerge a ((k, v) :: rest) = objMerge (objSet a k v) rest := rfl

/-! ### String lemmas -/

theorem strContains_left (a b n : String) (h : n.data <:+: a.data) :
    strContains (a ++ b) n = true := by
  unfold strContains
  rw [decide_eq_true_eq, String.data_append]
  exact h.trans (List.infix_append [] (a.data) (b.data))

theorem strContains_right (a b n : String) (h : n.data <:+: b.data) :
    strContains (a ++ b) n = true := by
  unfold strContains
  rw [decide_eq_true_eq, String.data_append]
  exact h.trans (List.suffix_append a.data b.data).isInfix

theorem strContains_eq_false (hay n : String) (c : Char)
    (hc : c ∈ n.data) (hh : c ∉ hay.data) : strContains hay n = false := by
  unfold strContains
  rw [decide_eq_false_iff_not]
  intro hinf
  exact hh (hinf.subset hc)

theorem toLower_of_digit {c : Char} (h : c.isDigit = true) :
    Char.toLower c = c := by
  simp only [Char.isDigit, Bool.and_eq_true, decide_eq_true_eq] at h
  unfold Char.toLower
  rw [if_neg]
  intro hc
  have h2 : c.val.toNat ≤ 57 := h.2
  have h3 : 65 ≤ Char.toNat c := hc.1
  simp only [Char.toNat] at h3
  omega

/-! ### Helper lemmas for the claim theorems -/

/-- Writing the merged record back: the store lookup afterwards finds it. -/
theorem find_map_update (recs : List (String × Obj)) (id : String) (merged : Obj)
    (h : (recs.find? (fun q => decide (q.1 = id))).isSome = true) :
    (recs.map (fun q => if q.1 = id then (id, merged) else q)).find?
        (fun q => decide (q.1 = id)) = some (id, merged) := by
  induction recs with
  | nil => simp [List.find?] at h
  | cons q rest ih =>
    obtain ⟨qk, qv⟩ := q
    by_cases hq : qk = id
    · subst hq
      simp [List.find?]
    · have hd : (decide (qk = id)) = false := by simp [hq]
      simp only [List.map_cons]
      rw [if_neg (by simpa using hq)]
      simp only [List.find?, hd]
      apply ih
      simpa only [List.find?, hd] using h

theorem digits_of_isValidZipCode {s : String} (h : isValidZipCode s = true) :
    ∀ d ∈ s.data, d.isDigit = true := by
  unfold isValidZipCode at h
  rw [Bool.and_eq_true, List.all_eq_true] at h
  intro d hd
  exact h.2 d hd

/-- No case-insensitive occurrence of `needle` in the not-found message when
some character of the lowered needle is not a digit and not among the fixed
surrounding characters. -/
theorem strContainsCI_zipmsg_false (z' needle : String) (c : Char)
    (hz : ∀ d ∈ z'.data, d.isDigit = true)
    (hcn : c ∈ (lowerStr needle).data)
    (hcd : c.isDigit = false)
    (hc1 : c ∉ (lowerStr "Zip code ").data)
    (hc2 : c ∉ (lowerStr " not found").data) :
    strContainsCI ("Zip code " ++ z' ++ " not found") needle = false := by
  unfold strContainsCI
  apply strContains_eq_false _ _ c hcn
  unfold lowerStr at hc1 hc2 ⊢
  simp only [String.data_append, List.map_append, List.mem_append]
  rintro ((hmem | hmem) | hmem)
  · exact hc1 hmem
  · obtain ⟨d, hd, hdc⟩ := List.mem_map.mp hmem
    have hlow := toLower_of_digit (hz d hd)
    rw [hlow] at hdc
    subst hdc
    rw [hz d hd] at hcd
    simp at hcd
  · exact hc2 hmem

/-- Case-sensitive version, for the `"OpenWeather"` check. -/
theorem strContains_zipmsg_false (z' needle : String) (c : Char)
    (hz : ∀ d ∈ z'.data, d.isDigit = true)
    (hcn : c ∈ needle.data)
    (hcd : c.isDigit = false)
    (hc1 : c ∉ "Zip code ".data)
    (hc2 : c ∉ " not found".data) :
    strContains ("Zip code " ++ z' ++ " not found") needle = false := by
  apply strContains_eq_false _ _ c hcn
  simp only [String.data_append, List.mem_append]
  rintro ((hmem | hmem) | hmem)
  · exact hc1 hmem
  · rw [hz c hmem] at hcd
    exact absurd hcd (by simp)
  · exact hc2 hmem

theorem zipmsg_ne_empty (z' : String) :
    ("Zip code " ++ z' ++ " not found") ≠ "" := by
  intro h
  have hd : ("Zip code " ++ z' ++ " not found").data = "".data := by rw [h]
  simp [String.data_append] at hd

theorem zipmsg_contains_not_found (z' : String) :
    strContains ("Zip code " ++ z' ++ " not found") "not found" = true := by
  apply strContains_right
  decide

theorem zipmsg_contains_zip_code (z' : String) :
    strContains ("Zip code " ++ z' ++ " not found") "Zip code" = true := by
  have h : ("Zip code " ++ z' ++ " not found") = "Zip code " ++ (z' ++ " not found") := by
    rw [String.append_assoc]
  rw [h]
  apply strContains_left
  decide

/-- When the flow reaches enrichment and enrichment fails, `createUser`
throws the catch-processed error and leaves the store untouched. -/
theorem createUser_fetch_error (st : Store) (upstream : UpstreamResult)
    (storeFail : Option String) (p : Payload) (z : String) (now : Nat)
    (e : JsError)
    (hn : truthy p.name = true) (hz : p.zipCode = some z)
    (hzt : truthy p.zipCode = true)
    (hvalid : isValidZipCode (jsTrim z) = true)
    (hfetch : fetchLocationData (jsTrim z) upstream = Except.error e) :
    createUser st upstream storeFail p now
      = (Except.error (serviceCatch400 e), st) := by
  unfold createUser createUserBody
  rw [hz] at hzt ⊢
  simp [hn, hzt, hvalid, hfetch]

/-- When enrichment succeeds and the store write does not fail, `createUser`
appends the nine-field record under a fresh key. -/
theorem createUser_fetch_ok (st : Store) (upstream : UpstreamResult)
    (p : Payload) (z : String) (now : Nat) (loc : LocationData)
    (hn : truthy p.name = true) (hz : p.zipCode = some z)
    (hzt : truthy p.zipCode = true)
    (hvalid : isValidZipCode (jsTrim z) = true)
    (hfetch : fetchLocationData (jsTrim z) upstream = Except.ok loc) :
    createUser st upstream none p now
      = (Except.ok (("id", JsVal.str (pushKey st.nextKey)) ::
           [("name", JsVal.str (jsTrim (p.name.getD ""))),
            ("zipCode", JsVal.str (jsTrim z)),
            ("latitude", JsVal.num loc.latitude),
            ("longitude", JsVal.num loc.longitude),
            ("timezone", JsVal.num loc.timezone),
            ("timezoneOffset", JsVal.str loc.timezoneOffset),
            ("city", JsVal.str loc.city),
            ("createdAt", JsVal.num now), ("updatedAt", JsVal.num now)]),
         { recs := st.recs ++ [(pushKey st.nextKey,
            [("name", JsVal.str (jsTrim (p.name.getD ""))),
             ("zipCode", JsVal.str (jsTrim z)),
             ("latitude", JsVal.num loc.latitude),
             ("longitude", JsVal.num loc.longitude),
             ("timezone", JsVal.num loc.timezone),
             ("timezoneOffset", JsVal.str loc.timezoneOffset),
             ("city", JsVal.str loc.city),
             ("createdAt", JsVal.num now), ("updatedAt", JsVal.num now)])],
           nextKey := st.nextKey + 1 }) := by
  unfold createUser createUserBody
  rw [hz] at hzt ⊢
  simp only [hn, hzt, Option.getD_some, Bool.not_true, Bool.or_self,
    Bool.false_eq_true, if_false, hvalid, hfetch]
  rfl

/-- Reducing `repoUpdate` on an existing id with a healthy store: merge, re-stamp
`updatedAt`, write back. -/
theorem repoUpdate_found (st : Store) (id : String) (u : Obj)
    (updateData : Obj) (now : Nat)
    (hfind0 : st.recs.find? (fun q => decide (q.1 = id)) = some (id, u)) :
    repoUpdate st none id updateData now
      = Except.ok (some (("id", JsVal.str id) ::
          objMerge u (objMerge updateData [("updatedAt", JsVal.num now)])),
        { recs := st.recs.map (fun q => if q.1 = id then
            (id, objMerge u (objMerge updateData [("updatedAt", JsVal.num now)]))
          else q),
          nextKey := st.nextKey }) := by
  unfold repoUpdate
  rw [hfind0]

/-- The store after writing `merged` under an existing `id` holds `merged`
there. -/
theorem storedRec_map_update (st : Store) (id : String) (merged : Obj)
    (h : (st.recs.find? (fun q => decide (q.1 = id))).isSome = true) :
    storedRec { recs := st.recs.map (fun q => if q.1 = id then (id, merged) else q),
                nextKey := st.nextKey } id = some merged := by
  unfold storedRec
  rw [find_map_update st.recs id merged h]
  rfl

/-- Full reduction of a successful `refreshUserLocation`. -/
theorem refreshUserLocation_ok (st : Store) (upstream : UpstreamResult)
    (id : String) (u : Obj) (z : String) (loc : LocationData) (now : Nat)
    (hfind0 : st.recs.find? (fun q => decide (q.1 = id)) = some (id, u))
    (hzip : objGet u "zipCode" = some (JsVal.str z))
    (hfetch : fetchLocationData z upstream = Except.ok loc) :
    refreshUserLocation st upstream none id now
      = (Except.ok (some (("id", JsVal.str id) :: objMerge u
          (objMerge
            [("latitude", JsVal.num loc.latitude),
             ("longitude", JsVal.num loc.longitude),
             ("timezone", JsVal.num loc.timezone),
             ("timezoneOffset", JsVal.str loc.timezoneOffset),
             ("locationUpdatedAt", JsVal.num now)]
            [("updatedAt", JsVal.num now)]))),
        { recs := st.recs.map (fun q => if q.1 = id then
            (id, objMerge u
              (objMerge
                [("latitude", JsVal.num loc.latitude),
                 ("longitude", JsVal.num loc.longitude),
                 ("timezone", JsVal.num loc.timezone),
                 ("timezoneOffset", JsVal.str loc.timezoneOffset),
                 ("locationUpdatedAt", JsVal.num now)]
                [("updatedAt", JsVal.num now)]))
          else q),
          nextKey := st.nextKey }) := by
  have hzread : objGet (("id", JsVal.str id) :: u) "zipCode"
      = some (JsVal.str z) := by
    simp [objGet, hzip]
  unfold refreshUserLocation repoFindById
  rw [hfind0]
  simp only [hzread, jsValToString, hfetch,
    repoUpdate_found st id u _ now hfind0]

/-! ### C6 -/

/-- C6: for every integer offset in seconds, `formatTimezoneOffset` returns
`"UTC"`, then `"+"` when the offset is nonnegative and `"-"` otherwise, then
`floor(abs(offset)/3600)` hours; zero yields exactly `"UTC+0"`, and sub-hour
offsets truncate to `0` hours rather than rounding. -/
theorem c6_timezone_label_format :
    (∀ o : Int, formatTimezoneOffset (some o) =
      "UTC" ++ (if 0 ≤ o then "+" else "-")
        ++ toString (Nat.floor ((o.natAbs : ℚ) / 3600)))
    ∧ formatTimezoneOffset (some 0) = "UTC+0"
    ∧ formatTimezoneOffset (some (-1800)) = "UTC-0"
    ∧ formatTimezoneOffset (some 1800) = "UTC+0" := by
  refine ⟨fun o => ?_, by decide, by decide, by decide⟩
  have hfloor : Nat.floor ((o.natAbs : ℚ) / 3600) = o.natAbs / 3600 := by
    have := Nat.floor_div_nat (α := ℚ) o.natAbs 3600
    simpa using this
  rw [hfloor]
  rfl

/-! ### C7 -/

/-- C7: `isValidZipCode` accepts exactly the strings of exactly five ASCII
decimal digits; it rejects every other string (wrong length, non-digits,
the empty string) and an absent (`undefined`) argument. -/
theorem c7_isValidZipCode_characterization :
    (∀ s : String, isValidZipCode s = true ↔
      (s.data.length = 5 ∧ ∀ c ∈ s.data, c.isDigit = true))
    ∧ isValidZipCode "" = false
    ∧ isValidZipCodeJs none = false := by
  refine ⟨fun s => ?_, by decide, by decide⟩
  unfold isValidZipCode
  rw [Bool.and_eq_true, List.all_eq_true]
  constructor
  · rintro ⟨h1, h2⟩
    exact ⟨beq_iff_eq.mp h1, h2⟩
  · rintro ⟨h1, h2⟩
    exact ⟨beq_iff_eq.mpr h1, h2⟩

/-! ### C2 -/

/-- C2: whenever the enrichment call of a create request fails, the create
operation returns an error and the store afterwards equals the store before:
no record (partial or otherwise) is written. -/
theorem c2_create_enrichment_failure_writes_nothing
    (st : Store) (upstream : UpstreamResult) (storeFail : Option String)
    (p : Payload) (z : String) (now : Nat) (e : JsError)
    (hn : truthy p.name = true) (hz : p.zipCode = some z)
    (hzt : truthy p.zipCode = true)
    (hvalid : isValidZipCode (jsTrim z) = true)
    (hfetch : fetchLocationData (jsTrim z) upstream = Except.error e) :
    (createUser st upstream storeFail p now).2 = st
    ∧ (createUser st upstream storeFail p now).1
        = Except.error (serviceCatch400 e) := by
  rw [createUser_fetch_error st upstream storeFail p z now e hn hz hzt hvalid hfetch]
  exact ⟨rfl, rfl⟩

/-- Witness for C2 at a concrete failing enrichment call. -/
theorem c2_witness :
    (createUser emptyStore (UpstreamResult.httpError 404 none) none johnPayload 7).2
        = emptyStore
    ∧ (createUser emptyStore (UpstreamResult.httpError 404 none) none johnPayload 7).1
        = Except.error (serviceCatch400 (mkErr "Zip code 12345 not found")) :=
  c2_create_enrichment_failure_writes_nothing emptyStore
    (UpstreamResult.httpError 404 none) none johnPayload "12345" 7
    (mkErr "Zip code 12345 not found") (by decide) rfl (by decide) (by decide)
    (by decide)

/-! ### C10 -/

/-- C10 (implicit): every record the create operation writes has exactly the
keys name, zipCode, latitude, longitude, timezone (raw offset),
timezoneOffset (label), city, createdAt, updatedAt — in particular the
country, state and weather fields of the enrichment result are never
persisted at creation. -/
theorem c10_created_record_exact_fields
    (st : Store) (upstream : UpstreamResult) (p : Payload) (z : String)
    (now : Nat) (loc : LocationData)
    (hn : truthy p.name = true) (hz : p.zipCode = some z)
    (hzt : truthy p.zipCode = true)
    (hvalid : isValidZipCode (jsTrim z) = true)
    (hfetch : fetchLocationData (jsTrim z) upstream = Except.ok loc) :
    ∃ rec : Obj,
      (createUser st upstream none p now).2.recs
          = st.recs ++ [(pushKey st.nextKey, rec)]
      ∧ objKeys rec = ["name", "zipCode", "latitude", "longitude", "timezone",
          "timezoneOffset", "city", "createdAt", "updatedAt"]
      ∧ objGet rec "latitude" = some (JsVal.num loc.latitude)
      ∧ objGet rec "longitude" = some (JsVal.num loc.longitude)
      ∧ objGet rec "timezone" = some (JsVal.num loc.timezone)
      ∧ objGet rec "timezoneOffset" = some (JsVal.str loc.timezoneOffset)
      ∧ objGet rec "city" = some (JsVal.str loc.city)
      ∧ objGet rec "createdAt" = some (JsVal.num now)
      ∧ objGet rec "updatedAt" = some (JsVal.num now) := by
  refine ⟨[("name", JsVal.str (jsTrim (p.name.getD ""))),
           ("zipCode", JsVal.str (jsTrim z)),
           ("latitude", JsVal.num loc.latitude),
           ("longitude", JsVal.num loc.longitude),
           ("timezone", JsVal.num loc.timezone),
           ("timezoneOffset", JsVal.str loc.timezoneOffset),
           ("city", JsVal.str loc.city),
           ("createdAt", JsVal.num now), ("updatedAt", JsVal.num now)], ?_,
    rfl, rfl, rfl, rfl, rfl, rfl, rfl, rfl⟩
  rw [createUser_fetch_ok st upstream p z now loc hn hz hzt hvalid hfetch]

/-- Witness for C10 at a concrete successful create. -/
theorem c10_witness :
    ∃ rec : Obj,
      (createUser emptyStore (UpstreamResult.ok nyResponse) none johnPayload 7).2.recs
          = emptyStore.recs ++ [(pushKey emptyStore.nextKey, rec)]
      ∧ objKeys rec = ["name", "zipCode", "latitude", "longitude", "timezone",
          "timezoneOffset", "city", "createdAt", "updatedAt"]
      ∧ objGet rec "latitude" = some (JsVal.num 40)
      ∧ objGet rec "longitude" = some (JsVal.num (-74))
      ∧ objGet rec "timezone" = some (JsVal.num (-18000))
      ∧ objGet rec "timezoneOffset" = some (JsVal.str "UTC-5")
      ∧ objGet rec "city" = some (JsVal.str "New York")
      ∧ objGet rec "createdAt" = some (JsVal.num 7)
      ∧ objGet rec "updatedAt" = some (JsVal.num 7) :=
  c10_created_record_exact_fields emptyStore (UpstreamResult.ok nyResponse)
    johnPayload "12345" 7
    { latitude := 40, longitude := -74, timezone := -18000,
      timezoneOffset := "UTC-5", city := "New York", country := none,
      state := none, weather := none }
    (by decide) rfl (by decide) (by decide) (by decide)

/-! ### C1 -/

/-- C1 counterexample: a create request whose enrichment call fails with a
generic transport failure (`Failed to fetch location data: socket hang up`)
propagates an error with NO bad-request tag (`statusCode` stays absent, so it
is classified as a server error downstream), refuting the claim that every
enrichment failure is re-tagged 400. -/
theorem c1_counterexample :
    errTag (createUser emptyStore (UpstreamResult.transport "socket hang up")
        none johnPayload 7).1 = some none
    ∧ errTag (createUser emptyStore (UpstreamResult.transport "socket hang up")
        none johnPayload 7).1 ≠ some (some 400) := by
  refine ⟨by decide, by decide⟩

/-- C1 (amended): for a create request that reaches enrichment, the error
propagated out of the create operation carries the bad-request (400) tag for
the not-found, unauthorized, rate-limited, provider-API and timeout failure
classes — their messages contain `"Zip code"` or `"API"` — but a generic
transport failure whose wrapped message mentions neither substring, and a
store-write failure whose wrapped message mentions neither substring, both
propagate untagged (server-error classification). -/
theorem c1_create_error_tagging
    (st : Store) (storeFail : Option String) (p : Payload) (z : String)
    (now : Nat)
    (hn : truthy p.name = true) (hz : p.zipCode = some z)
    (hzt : truthy p.zipCode = true)
    (hvalid : isValidZipCode (jsTrim z) = true) :
    (∀ d, errTag (createUser st (UpstreamResult.httpError 404 d)
        storeFail p now).1 = some (some 400))
    ∧ (∀ d, errTag (createUser st (UpstreamResult.httpError 401 d)
        storeFail p now).1 = some (some 400))
    ∧ (∀ d, errTag (createUser st (UpstreamResult.httpError 429 d)
        storeFail p now).1 = some (some 400))
    ∧ (∀ s d, s ≠ 404 → s ≠ 401 → s ≠ 429 →
        errTag (createUser st (UpstreamResult.httpError s d)
          storeFail p now).1 = some (some 400))
    ∧ errTag (createUser st UpstreamResult.timeout storeFail p now).1
        = some (some 400)
    ∧ (∀ m, strContains ("Failed to fetch location data: " ++ m) "Zip code" = false →
        strContains ("Failed to fetch location data: " ++ m) "API" = false →
        errTag (createUser st (UpstreamResult.transport m) storeFail p now).1
          = some none)
    ∧ (∀ resp m,
        strContains ("Failed to create user: " ++ m) "Zip code" = false →
        strContains ("Failed to create user: " ++ m) "API" = false →
        errTag (createUser st (UpstreamResult.ok resp) (some m) p now).1
          = some none) := by
  refine ⟨fun d => ?_, fun d => ?_, fun d => ?_, fun s d hs4 hs1 hs9 => ?_, ?_,
    fun m hm1 hm2 => ?_, fun resp m hm1 hm2 => ?_⟩
  · have hf : fetchLocationData (jsTrim z) (UpstreamResult.httpError 404 d)
        = Except.error (mkErr ("Zip code " ++ jsTrim z ++ " not found")) := by
      simp [fetchLocationData, hvalid]
    rw [createUser_fetch_error st _ storeFail p z now _ hn hz hzt hvalid hf]
    simp [errTag, serviceCatch400, mkErr, zipmsg_contains_zip_code]
  · have hf : fetchLocationData (jsTrim z) (UpstreamResult.httpError 401 d)
        = Except.error (mkErr "Invalid API key configuration") := by
      simp [fetchLocationData, hvalid]
    rw [createUser_fetch_error st _ storeFail p z now _ hn hz hzt hvalid hf]
    show errTag (Except.error (serviceCatch400 (mkErr "Invalid API key configuration")) : Except JsError Obj)
        = some (some 400)
    decide
  · have hf : fetchLocationData (jsTrim z) (UpstreamResult.httpError 429 d)
        = Except.error (mkErr "API rate limit exceeded. Please try again later.") := by
      simp [fetchLocationData, hvalid]
    rw [createUser_fetch_error st _ storeFail p z now _ hn hz hzt hvalid hf]
    show errTag (Except.error (serviceCatch400 (mkErr "API rate limit exceeded. Please try again later.")) : Except JsError Obj)
        = some (some 400)
    decide
  · have hf : fetchLocationData (jsTrim z) (UpstreamResult.httpError s d)
        = Except.error (mkErr ("OpenWeather API error: " ++ d.getD "Unknown error")) := by
      simp [fetchLocationData, hvalid, hs4, hs1, hs9]
    rw [createUser_fetch_error st _ storeFail p z now _ hn hz hzt hvalid hf]
    have hapi : strContains ("OpenWeather API error: " ++ d.getD "Unknown error") "API"
        = true := by
      have h0 : ("OpenWeather API error: " ++ d.getD "Unknown error")
          = "OpenWeather API error: " ++ (d.getD "Unknown error") := rfl
      rw [h0]
      apply strContains_left
      decide
    simp [errTag, serviceCatch400, mkErr, hapi]
  · have hf : fetchLocationData (jsTrim z) UpstreamResult.timeout
        = Except.error (mkErr "Request timeout - OpenWeather API is not responding") := by
      simp [fetchLocationData, hvalid]
    rw [createUser_fetch_error st _ storeFail p z now _ hn hz hzt hvalid hf]
    show errTag (Except.error (serviceCatch400 (mkErr "Request timeout - OpenWeather API is not responding")) : Except JsError Obj)
        = some (some 400)
    decide
  · have hf : fetchLocationData (jsTrim z) (UpstreamResult.transport m)
        = Except.error (mkErr ("Failed to fetch location data: " ++ m)) := by
      simp [fetchLocationData, hvalid]
    rw [createUser_fetch_error st _ storeFail p z now _ hn hz hzt hvalid hf]
    simp [errTag, serviceCatch400, mkErr, hm1, hm2]
  · unfold createUser createUserBody
    rw [hz] at hzt ⊢
    simp [hn, hzt, hvalid, fetchLocationData, repoCreate, errTag,
      serviceCatch400, mkErr, hm1, hm2]

/-- Witness for C1 at concrete inputs: a 404 enrichment failure is tagged
400, and a generic transport failure stays untagged. -/
theorem c1_witness :
    errTag (createUser emptyStore (UpstreamResult.httpError 404 none)
        none johnPayload 7).1 = some (some 400)
    ∧ errTag (createUser emptyStore (UpstreamResult.transport "ECONNRESET")
        none johnPayload 7).1 = some none := by
  have h := c1_create_error_tagging emptyStore none johnPayload "12345" 7
    (by decide) rfl (by decide) (by decide)
  exact ⟨h.1 none, h.2.2.2.2.2.1 "ECONNRESET" (by decide) (by decide)⟩

/-! ### C8 -/

/-- C8: when the enrichment provider answers HTTP 404 during a create
request, the controller catches the error the create operation throws and
calls `next(error)`, so the error middleware builds the final HTTP response:
status 400 — not 404 — with a message containing `"not found"`. -/
theorem c8_provider_404_yields_400_not_found
    (st : Store) (storeFail : Option String) (p : Payload) (z : String)
    (now : Nat) (d : Option String)
    (hn : truthy p.name = true) (hz : p.zipCode = some z)
    (hzt : truthy p.zipCode = true)
    (hvalid : isValidZipCode (jsTrim z) = true) :
    controllerCreateUser
        (createUser st (UpstreamResult.httpError 404 d) storeFail p now).1
      = CreateHttpResponse.error
          { statusCode := 400, error := "Bad Request",
            message := "Zip code " ++ jsTrim z ++ " not found" }
    ∧ strContains ("Zip code " ++ jsTrim z ++ " not found") "not found"
        = true := by
  have hf : fetchLocationData (jsTrim z) (UpstreamResult.httpError 404 d)
      = Except.error (mkErr ("Zip code " ++ jsTrim z ++ " not found")) := by
    simp [fetchLocationData, hvalid]
  have hcatch : serviceCatch400 (mkErr ("Zip code " ++ jsTrim z ++ " not found"))
      = { message := "Zip code " ++ jsTrim z ++ " not found",
          statusCode := some 400, name := "Error", code := ErrCode.nocode } := by
    simp [serviceCatch400, mkErr, zipmsg_contains_zip_code]
  have hdigits := digits_of_isValidZipCode hvalid
  have ht : strContainsCI ("Zip code " ++ jsTrim z ++ " not found") "timeout"
      = false :=
    strContainsCI_zipmsg_false _ _ 'm' hdigits (by decide) (by decide)
      (by decide) (by decide)
  have hfb : strContainsCI ("Zip code " ++ jsTrim z ++ " not found") "firebase"
      = false :=
    strContainsCI_zipmsg_false _ _ 'b' hdigits (by decide) (by decide)
      (by decide) (by decide)
  have hdb : strContainsCI ("Zip code " ++ jsTrim z ++ " not found") "database"
      = false :=
    strContainsCI_zipmsg_false _ _ 'b' hdigits (by decide) (by decide)
      (by decide) (by decide)
  have how : strContains ("Zip code " ++ jsTrim z ++ " not found") "OpenWeather"
      = false :=
    strContains_zipmsg_false _ _ 'W' hdigits (by decide) (by decide)
      (by decide) (by decide)
  have hne := zipmsg_ne_empty (jsTrim z)
  refine ⟨?_, zipmsg_contains_not_found (jsTrim z)⟩
  rw [createUser_fetch_error st _ storeFail p z now _ hn hz hzt hvalid hf]
  rw [hcatch]
  simp [controllerCreateUser, errorHandler, ht, hfb, hdb, how, hne]

/-- Witness for C8 at a concrete create request. -/
theorem c8_witness :
    controllerCreateUser
        (createUser emptyStore (UpstreamResult.httpError 404 none)
          none johnPayload 7).1
      = CreateHttpResponse.error
          { statusCode := 400, error := "Bad Request",
            message := "Zip code " ++ jsTrim "12345" ++ " not found" }
    ∧ strContains ("Zip code " ++ jsTrim "12345" ++ " not found") "not found"
        = true :=
  c8_provider_404_yields_400_not_found emptyStore none johnPayload "12345" 7
    none (by decide) rfl (by decide) (by decide)

/-! ### C9 -/

/-- C9 counterexample: the create flow really produces a 400-tagged error
whose message mentions the provider (`OpenWeather API error: Unknown error`,
provider HTTP 500), and the normalizer does NOT propagate the explicit tag:
the provider-name message rule fires first, rewriting the response to 503
with a replacement message.  This refutes the claim that an explicit
status-class tag is the first-matching rule. -/
theorem c9_counterexample :
    (createUser emptyStore (UpstreamResult.httpError 500 none) none
        johnPayload 7).1
      = Except.error openWeatherTagged
    ∧ (errorHandler openWeatherTagged).statusCode = 503
    ∧ (errorHandler openWeatherTagged).statusCode ≠ 400
    ∧ (errorHandler openWeatherTagged).message ≠ openWeatherTagged.message := by
  refine ⟨by decide, by decide, by decide, by decide⟩

/-- C9 (amended): an explicit status-class tag is only the *default*: the
name/code/message rules are checked first and can override a tagged error
(as the counterexample shows).  The status code of the tag, the fixed category
label for 400/401/403/404 (otherwise `"Error"`), and the own message of the error
are used exactly when none of the earlier rules matches: the name is neither
`ValidationError` nor `CastError`, the code is neither `11000` nor
`ECONNABORTED`, and the message matches none of the timeout, storage, or
provider-name wordings. -/
theorem c9_tag_passthrough_only_without_content_match
    (err : JsError) (c : Nat)
    (htag : err.statusCode = some c)
    (hv : err.name ≠ "ValidationError") (hc : err.name ≠ "CastError")
    (hdup : err.code ≠ ErrCode.num 11000)
    (hab : err.code ≠ ErrCode.str "ECONNABORTED")
    (ht : strContainsCI err.message "timeout" = false)
    (hfb : strContainsCI err.message "firebase" = false)
    (hdb : strContainsCI err.message "database" = false)
    (how : strContains err.message "OpenWeather" = false)
    (hne : err.message ≠ "") :
    (errorHandler err).statusCode = c
    ∧ (errorHandler err).message = err.message
    ∧ (errorHandler err).error
        = (if c = 404 then "Not Found" else if c = 400 then "Bad Request"
           else if c = 401 then "Unauthorized"
           else if c = 403 then "Forbidden" else "Error") := by
  unfold errorHandler
  rw [htag]
  simp only [Option.getD_some, if_neg hv, if_neg hc, if_neg hdup, if_neg hne]
  rw [if_neg (show ¬ ((decide (err.code = ErrCode.str "ECONNABORTED")
      || strContainsCI err.message "timeout") = true) from by simp [hab, ht])]
  rw [if_neg (show ¬ ((strContainsCI err.message "firebase"
      || strContainsCI err.message "database") = true) from by simp [hfb, hdb])]
  rw [if_neg (show ¬ (strContains err.message "OpenWeather" = true) from by
    simp [how])]
  split_ifs <;> simp_all

/-- Witness for C9 at a concrete tagged error matching no content rule. -/
theorem c9_witness :
    (errorHandler notFoundTagged).statusCode = 404
    ∧ (errorHandler notFoundTagged).message = "User not found"
    ∧ (errorHandler notFoundTagged).error
        = (if 404 = 404 then "Not Found" else if 404 = 400 then "Bad Request"
           else if 404 = 401 then "Unauthorized"
           else if 404 = 403 then "Forbidden" else "Error") :=
  c9_tag_passthrough_only_without_content_match notFoundTagged 404
    rfl (by decide) (by decide) (by decide) (by decide) (by decide)
    (by decide) (by decide) (by decide) (by decide)

/-! ### C3 -/

/-- C3 counterexample: refreshing the location of a stored record whose city
is `"New York"`, against a provider response whose city is `"Los Angeles"`,
leaves the stored `city` at `"New York"` — the refresh operation does NOT
apply the city of the enrichment result, refuting the claim that every location
field (including city) is applied. -/
theorem c3_counterexample :
    (storedRec (refreshUserLocation nyStore (UpstreamResult.ok laResponse)
        none "u1" 9).2 "u1").map (fun r => objGet r "city")
      = some (some (JsVal.str "New York"))
    ∧ (storedRec (refreshUserLocation nyStore (UpstreamResult.ok laResponse)
        none "u1" 9).2 "u1").map (fun r => objGet r "city")
      ≠ some (some (JsVal.str "Los Angeles"))
    ∧ (storedRec (refreshUserLocation nyStore (UpstreamResult.ok laResponse)
        none "u1" 9).2 "u1").map (fun r => objGet r "latitude")
      = some (some (JsVal.num 34)) := by
  refine ⟨by decide, by decide, by decide⟩

/-- C3 (amended): the refresh-location operation re-runs enrichment using the
currently stored zip code of the record (it takes no payload at all) and applies
the latitude, longitude, raw timezone offset and derived label of the
enrichment result to the stored record unconditionally — but NOT the city,
which keeps its previous value (as does the zip code). -/
theorem c3_refresh_applies_location_fields_except_city
    (st : Store) (upstream : UpstreamResult) (id : String) (u : Obj)
    (z : String) (loc : LocationData) (now : Nat)
    (hfind0 : st.recs.find? (fun q => decide (q.1 = id)) = some (id, u))
    (hzip : objGet u "zipCode" = some (JsVal.str z))
    (hfetch : fetchLocationData z upstream = Except.ok loc) :
    ∃ r : Obj,
      storedRec (refreshUserLocation st upstream none id now).2 id = some r
      ∧ objGet r "latitude" = some (JsVal.num loc.latitude)
      ∧ objGet r "longitude" = some (JsVal.num loc.longitude)
      ∧ objGet r "timezone" = some (JsVal.num loc.timezone)
      ∧ objGet r "timezoneOffset" = some (JsVal.str loc.timezoneOffset)
      ∧ objGet r "city" = objGet u "city"
      ∧ objGet r "zipCode" = some (JsVal.str z) := by
  have hisSome : (st.recs.find? (fun q => decide (q.1 = id))).isSome = true := by
    rw [hfind0]; rfl
  rw [refreshUserLocation_ok st upstream id u z loc now hfind0 hzip hfetch]
  have hUPD : objMerge
      [("latitude", JsVal.num loc.latitude),
       ("longitude", JsVal.num loc.longitude),
       ("timezone", JsVal.num loc.timezone),
       ("timezoneOffset", JsVal.str loc.timezoneOffset),
       ("locationUpdatedAt", JsVal.num now)]
      [("updatedAt", JsVal.num now)]
      = [("latitude", JsVal.num loc.latitude),
         ("longitude", JsVal.num loc.longitude),
         ("timezone", JsVal.num loc.timezone),
         ("timezoneOffset", JsVal.str loc.timezoneOffset),
         ("locationUpdatedAt", JsVal.num now),
         ("updatedAt", JsVal.num now)] := rfl
  rw [hUPD]
  refine ⟨objMerge u
    [("latitude", JsVal.num loc.latitude),
     ("longitude", JsVal.num loc.longitude),
     ("timezone", JsVal.num loc.timezone),
     ("timezoneOffset", JsVal.str loc.timezoneOffset),
     ("locationUpdatedAt", JsVal.num now),
     ("updatedAt", JsVal.num now)],
    storedRec_map_update st id _ hisSome, ?_, ?_, ?_, ?_, ?_, ?_⟩
  · simp [objMerge_cons, objMerge_nil, objGet_objSet]
  · simp [objMerge_cons, objMerge_nil, objGet_objSet]
  · simp [objMerge_cons, objMerge_nil, objGet_objSet]
  · simp [objMerge_cons, objMerge_nil, objGet_objSet]
  · simp [objMerge_cons, objMerge_nil, objGet_objSet, hzip]
  · simp [objMerge_cons, objMerge_nil, objGet_objSet, hzip]

/-- Witness for C3 at a concrete store and provider response. -/
theorem c3_witness :
    ∃ r : Obj,
      storedRec (refreshUserLocation nyStore (UpstreamResult.ok laResponse)
          none "u1" 9).2 "u1" = some r
      ∧ objGet r "latitude" = some (JsVal.num 34)
      ∧ objGet r "longitude" = some (JsVal.num (-118))
      ∧ objGet r "timezone" = some (JsVal.num (-28800))
      ∧ objGet r "timezoneOffset" = some (JsVal.str "UTC-8")
      ∧ objGet r "city" = objGet nyUser "city"
      ∧ objGet r "zipCode" = some (JsVal.str "12345") :=
  c3_refresh_applies_location_fields_except_city nyStore
    (UpstreamResult.ok laResponse) "u1" nyUser "12345"
    { latitude := 34, longitude := -118, timezone := -28800,
      timezoneOffset := "UTC-8", city := "Los Angeles", country := none,
      state := none, weather := none }
    9 (by decide) (by decide) (by decide)

/-! ### C4 -/

/-- C4: an update request against an existing record whose computed update
set is empty — no name in the payload, and the zip code either absent/empty
or equal to the stored one — fails with the 400-tagged error
`No valid updates provided` and performs no store write (the store is
unchanged). -/
theorem c4_empty_update_set_rejected
    (st : Store) (upstream : UpstreamResult) (storeFail : Option String)
    (id : String) (u : Obj) (p : Payload) (now : Nat)
    (hfind0 : st.recs.find? (fun q => decide (q.1 = id)) = some (id, u))
    (hname : p.name = none)
    (hzip : truthy p.zipCode = false
      ∨ ∃ z, p.zipCode = some z ∧ objGet u "zipCode" = some (JsVal.str z)) :
    (updateUser st upstream storeFail id p now).1.1
        = Except.error { message := "No valid updates provided",
                         statusCode := some 400, name := "Error",
                         code := ErrCode.nocode }
    ∧ (updateUser st upstream storeFail id p now).1.2 = st := by
  have hread : objGet (("id", JsVal.str id) :: u) "zipCode"
      = objGet u "zipCode" := by
    simp [objGet]
  unfold updateUser repoFindById
  rw [hfind0]
  rcases hzip with hf | ⟨z, hpz, heq⟩
  · simp [hname, hf]
  · simp [hname, hpz, hread, heq]

/-- Witness for C4: payload with only the stored zip code. -/
theorem c4_witness :
    (updateUser nyStore (UpstreamResult.transport "x") none "u1"
        { name := none, zipCode := some "12345" } 9).1.1
        = Except.error { message := "No valid updates provided",
                         statusCode := some 400, name := "Error",
                         code := ErrCode.nocode }
    ∧ (updateUser nyStore (UpstreamResult.transport "x") none "u1"
        { name := none, zipCode := some "12345" } 9).1.2 = nyStore :=
  c4_empty_update_set_rejected nyStore (UpstreamResult.transport "x") none
    "u1" nyUser { name := none, zipCode := some "12345" } 9
    (by decide) rfl (Or.inr ⟨"12345", rfl, by decide⟩)

/-! ### C5 -/

set_option maxHeartbeats 2000000 in
/-- C5: (a) when an update changes the zip code, the stored zip,
latitude, longitude, timezone fields and city are all replaced together from
the single fresh enrichment result; (b) a name-only update makes no call to
the enrichment provider (call counter 0) and leaves every location field of
the stored record untouched. -/
theorem c5_zip_change_atomic_name_only_frame :
    (∀ (st : Store) (upstream : UpstreamResult) (id : String) (u : Obj)
        (p : Payload) (z : String) (loc : LocationData) (now : Nat),
      st.recs.find? (fun q => decide (q.1 = id)) = some (id, u) →
      p.zipCode = some z → z ≠ "" →
      objGet u "zipCode" ≠ some (JsVal.str z) →
      isValidZipCode (jsTrim z) = true →
      fetchLocationData (jsTrim z) upstream = Except.ok loc →
      (updateUser st upstream none id p now).2 = 1
      ∧ ∃ r : Obj,
          storedRec (updateUser st upstream none id p now).1.2 id = some r
          ∧ objGet r "zipCode" = some (JsVal.str (jsTrim z))
          ∧ objGet r "latitude" = some (JsVal.num loc.latitude)
          ∧ objGet r "longitude" = some (JsVal.num loc.longitude)
          ∧ objGet r "timezone" = some (JsVal.num loc.timezone)
          ∧ objGet r "timezoneOffset" = some (JsVal.str loc.timezoneOffset)
          ∧ objGet r "city" = some (JsVal.str loc.city))
    ∧ (∀ (st : Store) (upstream : UpstreamResult) (id : String) (u : Obj)
        (n : String) (now : Nat),
      st.recs.find? (fun q => decide (q.1 = id)) = some (id, u) →
      (updateUser st upstream none id
          { name := some n, zipCode := none } now).2 = 0
      ∧ ∃ r : Obj,
          storedRec (updateUser st upstream none id
              { name := some n, zipCode := none } now).1.2 id = some r
          ∧ objGet r "name" = some (JsVal.str (jsTrim n))
          ∧ objGet r "zipCode" = objGet u "zipCode"
          ∧ objGet r "latitude" = objGet u "latitude"
          ∧ objGet r "longitude" = objGet u "longitude"
          ∧ objGet r "timezone" = objGet u "timezone"
          ∧ objGet r "timezoneOffset" = objGet u "timezoneOffset"
          ∧ objGet r "city" = objGet u "city") := by
  constructor
  · intro st upstream id u p z loc now hfind0 hpz hzne hchanged hvalid hfetch
    have hisSome : (st.recs.find? (fun q => decide (q.1 = id))).isSome = true := by
      rw [hfind0]; rfl
    have hbeq : (objGet u "zipCode" == some (JsVal.str z)) = false :=
      beq_eq_false_iff_ne.mpr hchanged
    have hread : objGet (("id", JsVal.str id) :: u) "zipCode"
        = objGet u "zipCode" := by
      simp [objGet]
    have htz : truthy (some z) = true := by simp [truthy, hzne]
    unfold updateUser repoFindById
    rw [hfind0]
    rcases hpn : p.name with _ | nm
    · simp only [hpz, hpn, htz, Option.getD_some, hread, hbeq, Bool.not_false,
        Bool.and_self, Bool.and_true, Bool.true_and, if_true, hvalid,
        Bool.not_true, Bool.false_eq_true, if_false, hfetch,
        repoUpdate_found st id u _ now hfind0]
      refine ⟨rfl, objMerge u
        [("zipCode", JsVal.str (jsTrim z)),
         ("latitude", JsVal.num loc.latitude),
         ("longitude", JsVal.num loc.longitude),
         ("timezone", JsVal.num loc.timezone),
         ("timezoneOffset", JsVal.str loc.timezoneOffset),
         ("city", JsVal.str loc.city),
         ("locationUpdatedAt", JsVal.num now),
         ("updatedAt", JsVal.num now)],
        storedRec_map_update st id _ hisSome, ?_, ?_, ?_, ?_, ?_, ?_⟩
      all_goals simp [objMerge_cons, objMerge_nil, objGet_objSet]
    · simp only [hpz, hpn, htz, Option.getD_some, hread, hbeq, Bool.not_false,
        Bool.and_self, Bool.and_true, Bool.true_and, if_true, hvalid,
        Bool.not_true, Bool.false_eq_true, if_false, hfetch,
        repoUpdate_found st id u _ now hfind0]
      refine ⟨rfl, objMerge u
        [("name", JsVal.str (jsTrim nm)),
         ("zipCode", JsVal.str (jsTrim z)),
         ("latitude", JsVal.num loc.latitude),
         ("longitude", JsVal.num loc.longitude),
         ("timezone", JsVal.num loc.timezone),
         ("timezoneOffset", JsVal.str loc.timezoneOffset),
         ("city", JsVal.str loc.city),
         ("locationUpdatedAt", JsVal.num now),
         ("updatedAt", JsVal.num now)],
        storedRec_map_update st id _ hisSome, ?_, ?_, ?_, ?_, ?_, ?_⟩
      all_goals simp [objMerge_cons, objMerge_nil, objGet_objSet]
  · intro st upstream id u n now hfind0
    have hisSome : (st.recs.find? (fun q => decide (q.1 = id))).isSome = true := by
      rw [hfind0]; rfl
    unfold updateUser repoFindById
    rw [hfind0]
    simp only [truthy, Bool.false_and, Bool.and_self, if_false,
      Bool.false_eq_true, List.isEmpty_cons,
      repoUpdate_found st id u _ now hfind0]
    refine ⟨by trivial, objMerge u
      [("name", JsVal.str (jsTrim n)), ("updatedAt", JsVal.num now)],
      storedRec_map_update st id _ hisSome,
      ?_, ?_, ?_, ?_, ?_, ?_, ?_⟩
    all_goals
      simp [objMerge_cons, objMerge_nil, objGet_objSet]

/-- Witness for C5: a zip-change update against the concrete store replaces
all location fields together; a name-only update calls no enrichment and
leaves them untouched. -/
theorem c5_witness :
    ((updateUser nyStore (UpstreamResult.ok laResponse) none "u1"
        { name := none, zipCode := some "90210" } 9).2 = 1
      ∧ ∃ r : Obj,
        storedRec (updateUser nyStore (UpstreamResult.ok laResponse) none "u1"
            { name := none, zipCode := some "90210" } 9).1.2 "u1" = some r
        ∧ objGet r "zipCode" = some (JsVal.str (jsTrim "90210"))
        ∧ objGet r "latitude" = some (JsVal.num 34)
        ∧ objGet r "longitude" = some (JsVal.num (-118))
        ∧ objGet r "timezone" = some (JsVal.num (-28800))
        ∧ objGet r "timezoneOffset" = some (JsVal.str "UTC-8")
        ∧ objGet r "city" = some (JsVal.str "Los Angeles"))
    ∧ ((updateUser nyStore (UpstreamResult.transport "x") none "u1"
        { name := some "Jane Roe", zipCode := none } 9).2 = 0
      ∧ ∃ r : Obj,
        storedRec (updateUser nyStore (UpstreamResult.transport "x") none "u1"
            { name := some "Jane Roe", zipCode := none } 9).1.2 "u1" = some r
        ∧ objGet r "name" = some (JsVal.str (jsTrim "Jane Roe"))
        ∧ objGet r "zipCode" = objGet nyUser "zipCode"
        ∧ objGet r "latitude" = objGet nyUser "latitude"
        ∧ objGet r "longitude" = objGet nyUser "longitude"
        ∧ objGet r "timezone" = objGet nyUser "timezone"
        ∧ objGet r "timezoneOffset" = objGet nyUser "timezoneOffset"
        ∧ objGet r "city" = objGet nyUser "city") :=
  ⟨c5_zip_change_atomic_name_only_frame.1 nyStore (UpstreamResult.ok laResponse)
      "u1" nyUser { name := none, zipCode := some "90210" } "90210"
      { latitude := 34, longitude := -118, timezone := -28800,
        timezoneOffset := "UTC-8", city := "Los Angeles", country := none,
        state := none, weather := none } 9
      (by decide) rfl (by decide) (by decide) (by decide) (by decide),
   c5_zip_change_atomic_name_only_frame.2 nyStore (UpstreamResult.transport "x")
      "u1" nyUser "Jane Roe" 9 (by decide)⟩
